import Mathlib

/-!
Verification of the AI-Voice-Assistant interchange contract.

Shallow embedding of the two components that the specification covers:

* the Submission Relay, the `POST` handler of
  `src/frontend/ai-voice-assistant/src/app/api/process-voice/route.ts`,
  modelled as `VoiceAssistant.POST`;
* the Capture Client, the `Home` component of the client page
  (`startRecording`, `stopRecording`, `handleSubmit` and the
  `MediaRecorder` callbacks), modelled as a state machine on
  `VoiceAssistant.ClientState`.

The Processing Boundary (the external backend at
`http://localhost:8000/process-audio`) is modelled as an arbitrary
behaviour parameter `BoundaryBehavior`: it may fail at the transport
level, or respond with any status and a body that may or may not parse
into the documented shape.
-/

namespace VoiceAssistant

/-- Bytes of one audio chunk delivered by the recorder (`event.data`). -/
abbrev Chunk := List Nat

/-- An in-memory audio object (a `Blob` in the source): raw bytes. -/
abbrev AudioBlob := List Nat

/-- Shape of a successfully parsed Processing Boundary response body:
`{ text_response, audio_url }` as read by the relay at route.ts lines 52-53. -/
structure BackendBody where
  text_response : String
  audio_url : Option String
deriving DecidableEq

/-- Behaviour of the external Processing Boundary on one request:
either the `fetch` to it fails at the transport level, or it responds
with a status code and a body; `none` for the body means the body does
not parse as JSON (so `backendResponse.json()` throws). -/
inductive BoundaryBehavior where
  | transportFail : BoundaryBehavior
  | respond : Nat → Option BackendBody → BoundaryBehavior
deriving DecidableEq

/-- The `Response.ok` predicate of `fetch`: status in the range 200-299. -/
def statusOk (s : Nat) : Bool := decide (200 ≤ s) && decide (s < 300)

/-- A JSON body produced by the relay for the client. Each field is
`none` when absent from the object (`undefined` on the client side).
The relay writes either `{ response, audioUrl }` or `{ error }`. -/
structure JsonBody where
  response : Option String
  audioUrl : Option String
  error : Option String
deriving DecidableEq

/-- Classification of a relay failure, following the spec's error
taxonomy: `missingPayload` is the 400 on an absent audio part,
`boundary st` is the `throw new Error` on a non-ok backend status `st`,
`transport` is a `fetch` rejection, `parse` is a `json()` rejection. -/
inductive ErrKind where
  | missingPayload : ErrKind
  | boundary : Nat → ErrKind
  | transport : ErrKind
  | parse : ErrKind
deriving DecidableEq

/-- Complete observable outcome of one run of the relay's `POST`
handler: the HTTP status and JSON body sent to the client, whether the
temporary `.wav` file was created (route.ts line 25) and whether the
`fs.unlinkSync` cleanup was executed (line 45), whether the backend was
contacted, and the classification of the failure if any. -/
structure RelayOutcome where
  status : Nat
  body : JsonBody
  tempCreated : Bool
  tempRemoved : Bool
  backendCalled : Bool
  err : Option ErrKind
deriving DecidableEq

/-- The `POST` handler of route.ts. `audioFile` is `formData.get("audio")`
(`none` when the part is missing); `b` is the Processing Boundary's
behaviour on the forwarded request. Control flow follows the source:
missing audio returns 400 before any file or network activity; otherwise
the temp file is written, the backend is called, a non-ok status throws
(caught by the outer handler as a 500), an unparseable body throws
likewise, and only the fully successful path reaches the unlink and the
200 response. -/
def POST (audioFile : Option AudioBlob) (b : BoundaryBehavior) : RelayOutcome :=
  match audioFile with
  | none =>
      { status := 400, body := ⟨none, none, some "No audio file provided"⟩,
        tempCreated := false, tempRemoved := false, backendCalled := false,
        err := some .missingPayload }
  | some _ =>
      match b with
      | .transportFail =>
          { status := 500, body := ⟨none, none, some "Failed to process audio"⟩,
            tempCreated := true, tempRemoved := false, backendCalled := true,
            err := some .transport }
      | .respond st ob =>
          if statusOk st then
            match ob with
            | none =>
                { status := 500, body := ⟨none, none, some "Failed to process audio"⟩,
                  tempCreated := true, tempRemoved := false, backendCalled := true,
                  err := some .parse }
            | some bb =>
                { status := 200, body := ⟨some bb.text_response, bb.audio_url, none⟩,
                  tempCreated := true, tempRemoved := true, backendCalled := true,
                  err := none }
          else
            { status := 500, body := ⟨none, none, some "Failed to process audio"⟩,
              tempCreated := true, tempRemoved := false, backendCalled := true,
              err := some (.boundary st) }

/-- The part of the relay outcome the client can observe: the HTTP
status and the JSON body. -/
def clientView (r : RelayOutcome) : Nat × JsonBody := (r.status, r.body)

/-- State of the Capture Client (`Home` component): the five `useState`
hooks plus the two refs. `response` is `Option String` so that a JS
`undefined` written by `setResponse(data.response)` can be represented
(`none`); the initial value is the empty string. `hasRecorder` models
`mediaRecorderRef.current !== null`; `chunks` models
`audioChunksRef.current`. -/
structure ClientState where
  isRecording : Bool
  audioBlob : Option AudioBlob
  response : Option String
  isLoading : Bool
  error : Option String
  hasRecorder : Bool
  chunks : List Chunk
deriving DecidableEq

/-- Initial client state, from the `useState` / `useRef` initialisers. -/
def initialState : ClientState :=
  { isRecording := false, audioBlob := none, response := some "",
    isLoading := false, error := none, hasRecorder := false, chunks := [] }

/-- The message set by `startRecording` when `getUserMedia` rejects. -/
def permissionErrorMsg : String :=
  "Microphone access denied. Please allow microphone access."

/-- The message set by `handleSubmit` when the submission fails. -/
def submitErrorMsg : String :=
  "Failed to process your request. Please try again."

/-- The client's `startRecording`. `granted` is whether
`navigator.mediaDevices.getUserMedia` resolves: when it rejects, only
the error message is set; when it resolves, a fresh recorder is
installed, the chunk buffer is reset and recording begins. -/
def startRecording (s : ClientState) (granted : Bool) : ClientState :=
  if granted then
    { s with hasRecorder := true, chunks := [], isRecording := true }
  else
    { s with error := some permissionErrorMsg }

/-- The recorder's `ondataavailable` callback: appends the chunk to the
buffer. The callback can only fire while the installed recorder is
active. -/
def dataAvailable (s : ClientState) (c : Chunk) : ClientState :=
  if s.hasRecorder && s.isRecording then { s with chunks := s.chunks ++ [c] } else s

/-- The client's `stopRecording`: guarded by
`mediaRecorderRef.current && isRecording`. When the guard holds it stops
the recorder, which fires `onstop`, finalising the buffered chunks into
one blob (`new Blob(audioChunksRef.current)`) stored in `audioBlob`. -/
def stopRecording (s : ClientState) : ClientState :=
  if s.hasRecorder && s.isRecording then
    { s with isRecording := false, audioBlob := some s.chunks.flatten }
  else s

/-- A capture-phase event of the client session. -/
inductive CEvent where
  | start : Bool → CEvent
  | data : Chunk → CEvent
  | stop : CEvent
deriving DecidableEq

/-- One step of the client capture state machine. -/
def step (s : ClientState) (e : CEvent) : ClientState :=
  match e with
  | .start g => startRecording s g
  | .data c => dataAvailable s c
  | .stop => stopRecording s

/-- Run the client capture state machine over a list of events. -/
def run (s : ClientState) (es : List CEvent) : ClientState := es.foldl step s

/-- What the client's `fetch("/api/process-voice")` produces: a
transport-level rejection, or a response carrying a status and the
relay's JSON body. -/
inductive FetchOutcome where
  | fail : FetchOutcome
  | response : Nat → JsonBody → FetchOutcome
deriving DecidableEq

/-- JS truthiness of the `data.audioUrl` field: absent (`undefined` or
`null`) and the empty string are falsy. -/
def isTruthy : Option String → Bool
  | none => false
  | some s => s != ""

/-- Result of one run of `handleSubmit`: the final client state, how
many times `audio.play()` was invoked, and whether the network request
to the relay was issued at all. -/
structure SubmitResult where
  state : ClientState
  playCount : Nat
  networkCalled : Bool
deriving DecidableEq

/-- The client's `handleSubmit`. With no captured blob it returns at
once. Otherwise it sets loading, clears the error, posts the blob;
a non-ok status or a transport failure lands in the catch block which
sets the generic error message; on success it stores `data.response`
and plays `data.audioUrl` once when that field is truthy. The `finally`
block clears the loading flag on every path. -/
def handleSubmit (s : ClientState) (f : FetchOutcome) : SubmitResult :=
  match s.audioBlob with
  | none => ⟨s, 0, false⟩
  | some _ =>
      match f with
      | .fail =>
          ⟨{ s with isLoading := false, error := some submitErrorMsg }, 0, true⟩
      | .response st body =>
          if statusOk st then
            ⟨{ s with isLoading := false, error := none, response := body.response },
             if isTruthy body.audioUrl then 1 else 0, true⟩
          else
            ⟨{ s with isLoading := false, error := some submitErrorMsg }, 0, true⟩

/-- The fetch outcome the client observes when the relay itself is
reached and runs to completion. -/
def relayToFetch (r : RelayOutcome) : FetchOutcome := .response r.status r.body

/-- The Processing Boundary conformance assumption of spec section 6: a
success response (ok status) carries a parseable body whose
`text_response` field is a non-empty string. -/
def boundaryConforms : BoundaryBehavior → Prop
  | .transportFail => True
  | .respond st ob => statusOk st = true → ∃ bb, ob = some bb ∧ bb.text_response ≠ ""

/-- A boundary behaviour that makes the relay fail after the audio
payload has been accepted: a transport failure, a non-success status, or
an unparseable response body. -/
def failsAfterAccept : BoundaryBehavior → Prop
  | .transportFail => True
  | .respond st ob => statusOk st = false ∨ ob = none

/-- Helper for C9: every failure cause after payload acceptance produces
the same client view. -/
theorem clientView_of_failsAfterAccept (a : AudioBlob) (b : BoundaryBehavior)
    (h : failsAfterAccept b) :
    clientView (POST (some a) b) =
      (500, ⟨none, none, some "Failed to process audio"⟩) := by
  cases b with
  | transportFail => rfl
  | respond st ob =>
      rcases h with h | h
      · simp [POST, clientView, h]
      · subst h
        by_cases hok : statusOk st
        · simp [POST, clientView, hok]
        · simp [POST, clientView, hok]

/-- C1: the claim says the temporary `.wav` file is removed after the
transmission completes or fails, regardless of outcome. The code only
reaches the `fs.unlinkSync` cleanup on the fully successful path: when
the Processing Boundary responds with status 500 the relay does fail
with the boundary error and answers 500 to the client, but the
temporary file it created is never removed. This theorem evaluates the
handler at that failing input. -/
theorem relay_temp_file_leaked_on_boundary_500 :
    (POST (some [1, 2]) (.respond 500 none)).err = some (.boundary 500) ∧
    (POST (some [1, 2]) (.respond 500 none)).status = 500 ∧
    (POST (some [1, 2]) (.respond 500 none)).tempCreated = true ∧
    (POST (some [1, 2]) (.respond 500 none)).tempRemoved = false :=
  ⟨rfl, rfl, rfl, rfl⟩

/-- C2: for every non-empty audio capture, when the Processing Boundary
conforms to its contract (success bodies carry a non-empty
`text_response`), the relay either succeeds with a non-empty text field
in `response`, or fails with the transport error or a boundary error
carrying the status; in particular it never reports success with both
fields empty. -/
theorem relay_success_has_nonempty_text (audio : AudioBlob) (b : BoundaryBehavior)
    (_hne : audio ≠ []) (hc : boundaryConforms b) :
    ((POST (some audio) b).err = none ∧
      ∃ t, (POST (some audio) b).body.response = some t ∧ t ≠ "") ∨
    (POST (some audio) b).err = some .transport ∨
    (∃ st, (POST (some audio) b).err = some (.boundary st)) := by
  cases b with
  | transportFail => exact Or.inr (Or.inl rfl)
  | respond st ob =>
      by_cases hok : statusOk st = true
      · obtain ⟨bb, hob, ht⟩ := hc hok
        subst hob
        exact Or.inl (by simp [POST, hok]; exact ht)
      · exact Or.inr (Or.inr ⟨st, by simp [POST, hok]⟩)

/-- Witness for C2 at a concrete conforming run: audio `[1]`, boundary
answering 200 with text "hi". -/
theorem relay_success_has_nonempty_text_witness :
    ((POST (some [1]) (.respond 200 (some ⟨"hi", none⟩))).err = none ∧
      ∃ t, (POST (some [1]) (.respond 200 (some ⟨"hi", none⟩))).body.response =
        some t ∧ t ≠ "") ∨
    (POST (some [1]) (.respond 200 (some ⟨"hi", none⟩))).err = some .transport ∨
    (∃ st, (POST (some [1]) (.respond 200 (some ⟨"hi", none⟩))).err =
      some (.boundary st)) :=
  relay_success_has_nonempty_text [1] (.respond 200 (some ⟨"hi", none⟩))
    (by simp) (by intro h; exact ⟨⟨"hi", none⟩, rfl, by decide⟩)

/-- C4: a non-success boundary status makes the relay fail with the
boundary error carrying that status, and a transport failure makes it
fail with the transport error; in both cases the client receives the
shape with only the `error` string set, under HTTP status 500, which is
not a success status. -/
theorem relay_error_classification (audio : AudioBlob) (st : Nat)
    (ob : Option BackendBody) (h : statusOk st = false) :
    (POST (some audio) (.respond st ob)).err = some (.boundary st) ∧
    (POST (some audio) (.respond st ob)).status = 500 ∧
    (POST (some audio) (.respond st ob)).body =
      ⟨none, none, some "Failed to process audio"⟩ ∧
    statusOk (POST (some audio) (.respond st ob)).status = false ∧
    (POST (some audio) .transportFail).err = some .transport ∧
    (POST (some audio) .transportFail).status = 500 ∧
    (POST (some audio) .transportFail).body =
      ⟨none, none, some "Failed to process audio"⟩ := by
  have h' : ¬ statusOk st = true := by simp [h]
  refine ⟨?_, ?_, ?_, ?_, rfl, rfl, rfl⟩ <;> simp [POST, h']
  rfl

/-- Witness for C4 at boundary status 500. -/
theorem relay_error_classification_witness :
    (POST (some [1]) (.respond 500 none)).err = some (.boundary 500) ∧
    (POST (some [1]) (.respond 500 none)).status = 500 ∧
    (POST (some [1]) (.respond 500 none)).body =
      ⟨none, none, some "Failed to process audio"⟩ ∧
    statusOk (POST (some [1]) (.respond 500 none)).status = false ∧
    (POST (some [1]) .transportFail).err = some .transport ∧
    (POST (some [1]) .transportFail).status = 500 ∧
    (POST (some [1]) .transportFail).body =
      ⟨none, none, some "Failed to process audio"⟩ :=
  relay_error_classification [1] 500 none (by decide)

/-- C9: any two relay invocations that fail after the audio payload was
accepted — boundary non-success status, transport failure, or
unparseable boundary body — produce identical client-visible responses,
namely status 500 with body `\x7b error: "Failed to process audio" \x7d`,
so the failure cause is not observable from the response. -/
theorem relay_failures_indistinguishable (a1 a2 : AudioBlob)
    (b1 b2 : BoundaryBehavior)
    (h1 : failsAfterAccept b1) (h2 : failsAfterAccept b2) :
    clientView (POST (some a1) b1) = clientView (POST (some a2) b2) ∧
    clientView (POST (some a1) b1) =
      (500, ⟨none, none, some "Failed to process audio"⟩) := by
  have e1 := clientView_of_failsAfterAccept a1 b1 h1
  have e2 := clientView_of_failsAfterAccept a2 b2 h2
  exact ⟨e1.trans e2.symm, e1⟩

/-- Witness for C9: a transport failure and a boundary 503 produce the
same client view. -/
theorem relay_failures_indistinguishable_witness :
    clientView (POST (some [1]) .transportFail) =
      clientView (POST (some [2, 3]) (.respond 503 none)) ∧
    clientView (POST (some [1]) .transportFail) =
      (500, ⟨none, none, some "Failed to process audio"⟩) :=
  relay_failures_indistinguishable [1] [2, 3] .transportFail (.respond 503 none)
    trivial (Or.inl (by decide))

/-- Helper: running the state machine over an appended event list is
running it over the pieces in order. -/
theorem run_append (s : ClientState) (l1 l2 : List CEvent) :
    run s (l1 ++ l2) = run (run s l1) l2 := by
  simp [run, List.foldl_append]

/-- Helper: delivering a sequence of chunks while a recorder is active
appends them, in order, to the chunk buffer and changes nothing else. -/
theorem run_map_data (s : ClientState) (cs : List Chunk)
    (hr : s.hasRecorder = true) (hrec : s.isRecording = true) :
    run s (cs.map CEvent.data) = { s with chunks := s.chunks ++ cs } := by
  induction cs generalizing s with
  | nil => simp [run]
  | cons c cs ih =>
      have h1 : run s ((CEvent.data c) :: cs.map CEvent.data)
          = run (dataAvailable s c) (cs.map CEvent.data) := rfl
      have h2 : dataAvailable s c = { s with chunks := s.chunks ++ [c] } := by
        simp [dataAvailable, hr, hrec]
      have h3 := ih { s with chunks := s.chunks ++ [c] } hr hrec
      rw [List.map_cons, h1, h2, h3]
      simp

/-- Helper: one full capture cycle (permission granted, chunks `cs`
delivered, stop) from any non-recording state resets the chunk buffer at
the start and finalises exactly the delivered chunks into the capture. -/
theorem run_capture_cycle (s : ClientState) (cs : List Chunk) :
    run s ([CEvent.start true] ++ cs.map CEvent.data ++ [CEvent.stop])
      = { s with
          hasRecorder := true
          isRecording := false
          chunks := cs
          audioBlob := some cs.flatten } := by
  rw [run_append, run_append]
  have h1 : run s [CEvent.start true]
      = { s with hasRecorder := true, chunks := [], isRecording := true } := rfl
  rw [h1, run_map_data _ cs rfl rfl]
  simp [run, step, stopRecording]

/-- C5: the client session holds at most one capture (the single
`audioBlob` slot), and after the sequence startCapture, stopCapture,
startCapture, stopCapture — with chunk lists `cs1` and `cs2` delivered
during the two recordings — the capture eligible for submission is
exactly the blob of the second recording: `startRecording` resets the
chunk buffer, so the first capture is discarded. -/
theorem only_second_capture_eligible (cs1 cs2 : List Chunk) :
    (run initialState ([CEvent.start true] ++ cs1.map CEvent.data ++ [CEvent.stop]
        ++ ([CEvent.start true] ++ cs2.map CEvent.data ++ [CEvent.stop]))).audioBlob
      = some cs2.flatten ∧
    (run initialState ([CEvent.start true] ++ cs1.map CEvent.data ++ [CEvent.stop]
        ++ ([CEvent.start true] ++ cs2.map CEvent.data
            ++ [CEvent.stop]))).isRecording = false := by
  rw [run_append, run_capture_cycle, run_capture_cycle]
  exact ⟨rfl, rfl⟩

/-- C3 counterexample: the claim says a submission with no captured
audio is rejected with a client-visible validation message. In the
source, `handleSubmit` returns immediately when `audioBlob` is null:
starting from the initial state (where no capture exists and no error
message is displayed), the state after the call is unchanged, the error
slot is still empty — no validation message is shown — and no network
call is made. -/
theorem submit_without_capture_shows_no_message :
    handleSubmit initialState FetchOutcome.fail = ⟨initialState, 0, false⟩ ∧
    initialState.error = none :=
  ⟨rfl, rfl⟩

/-- C3 amended: calling submit with no captured audio present performs
no network call and is silently ignored — the client state, including
the displayed error, is exactly unchanged (no validation message is
shown). -/
theorem submit_without_capture_silent_noop (s : ClientState) (f : FetchOutcome)
    (h : s.audioBlob = none) :
    handleSubmit s f = ⟨s, 0, false⟩ := by
  simp [handleSubmit, h]

/-- Witness for the amended C3 at the initial state. -/
theorem submit_without_capture_silent_noop_witness :
    handleSubmit initialState (FetchOutcome.response 200 ⟨some "x", none, none⟩)
      = ⟨initialState, 0, false⟩ :=
  submit_without_capture_silent_noop initialState
    (FetchOutcome.response 200 ⟨some "x", none, none⟩) rfl

/-- C6: when a submission with a capture present receives a successful
response, the text of the result is stored for rendering; playback is
initiated exactly once when the audio reference is present (a non-empty
locator string) and never when it is absent. -/
theorem submit_success_renders_and_plays_once (s : ClientState) (blob : AudioBlob)
    (st : Nat) (text : String) (au : Option String)
    (hb : s.audioBlob = some blob) (hok : statusOk st = true) :
    (handleSubmit s (.response st ⟨some text, au, none⟩)).state.response
      = some text ∧
    (au = none →
      (handleSubmit s (.response st ⟨some text, au, none⟩)).playCount = 0) ∧
    (∀ u, au = some u → u ≠ "" →
      (handleSubmit s (.response st ⟨some text, au, none⟩)).playCount = 1) := by
  refine ⟨?_, ?_, ?_⟩
  · simp [handleSubmit, hb, hok]
  · intro hau; subst hau; simp [handleSubmit, hb, hok, isTruthy]
  · intro u hau hu; subst hau; simp [handleSubmit, hb, hok, isTruthy, hu]

/-- Witness for C6: a successful response with a present audio
reference renders the text and plays once. -/
theorem submit_success_renders_and_plays_once_witness :
    (handleSubmit { initialState with audioBlob := some [1] }
        (.response 200 ⟨some "hi", some "https://r/reply.mp3", none⟩)).state.response
      = some "hi" ∧
    ((some "https://r/reply.mp3" : Option String) = none →
      (handleSubmit { initialState with audioBlob := some [1] }
        (.response 200 ⟨some "hi", some "https://r/reply.mp3", none⟩)).playCount
        = 0) ∧
    (∀ u, (some "https://r/reply.mp3" : Option String) = some u → u ≠ "" →
      (handleSubmit { initialState with audioBlob := some [1] }
        (.response 200 ⟨some "hi", some "https://r/reply.mp3", none⟩)).playCount
        = 1) :=
  submit_success_renders_and_plays_once { initialState with audioBlob := some [1] }
    [1] 200 "hi" (some "https://r/reply.mp3") rfl (by decide)

/-- C7: calling stopCapture while not recording is a no-op — the entire
client state (recording flag, chunk buffer, pending capture, rendered
result and error) is returned unchanged. -/
theorem stop_while_not_recording_noop (s : ClientState)
    (h : s.isRecording = false) :
    stopRecording s = s := by
  simp [stopRecording, h]

/-- Witness for C7 at the initial state. -/
theorem stop_while_not_recording_noop_witness :
    stopRecording initialState = initialState :=
  stop_while_not_recording_noop initialState rfl

/-- C8: when microphone access is denied, startCapture surfaces the
permission error message and the state does not transition to Recording;
when access is granted, it installs a recorder, resets the chunk buffer
(begins buffering) and transitions to Recording. -/
theorem start_capture_behavior (s : ClientState) (h : s.isRecording = false) :
    (startRecording s false).error = some permissionErrorMsg ∧
    (startRecording s false).isRecording = false ∧
    (startRecording s true).isRecording = true ∧
    (startRecording s true).hasRecorder = true ∧
    (startRecording s true).chunks = [] := by
  simp [startRecording, h]

/-- Witness for C8 at the initial state. -/
theorem start_capture_behavior_witness :
    (startRecording initialState false).error = some permissionErrorMsg ∧
    (startRecording initialState false).isRecording = false ∧
    (startRecording initialState true).isRecording = true ∧
    (startRecording initialState true).hasRecorder = true ∧
    (startRecording initialState true).chunks = [] :=
  start_capture_behavior initialState rfl

/-- C10: every submission attempt that starts with a capture present
ends with the loading flag cleared, whatever the fetch outcome — the
`finally` block runs on the success path and on every failure path. -/
theorem submit_clears_loading (s : ClientState) (blob : AudioBlob)
    (f : FetchOutcome) (hb : s.audioBlob = some blob) :
    (handleSubmit s f).state.isLoading = false := by
  cases f with
  | fail => simp [handleSubmit, hb]
  | response st body =>
      by_cases hok : statusOk st <;> simp [handleSubmit, hb, hok]

/-- Witness for C10 on a failing fetch. -/
theorem submit_clears_loading_witness :
    (handleSubmit { initialState with audioBlob := some [1] }
        FetchOutcome.fail).state.isLoading = false :=
  submit_clears_loading { initialState with audioBlob := some [1] } [1]
    FetchOutcome.fail rfl

end VoiceAssistant
